import Mathlib

/-!
Verification of the geozero GeoJSON reference sink (`geojson_writer.rs`) and the
GDAL conversion adapter (`gdal/mod.rs`) against the natural-language spec.

Modelling conventions:
* The underlying byte sink `W: Write` is modelled by `OutState`: a buffer of
  bytes already accepted (as a `String`) plus a failure oracle `failAfter`:
  `none` means every `write_all` call succeeds (the `Vec<u8>` case),
  `some k` means the next `k` calls succeed and the one after fails.
  Each `write_all` either appends its whole argument and succeeds, or fails
  leaving the buffer untouched — the abstraction of `std::io::Write::write_all`.
* Rust `f64` coordinate values are modelled by the `String` their `Display`
  implementation produces: the writer only ever formats them with `{x}` and
  never inspects them, so the rendering text is the faithful interface.
* Fallible methods return the updated writer *and* the `Except` result, because
  in Rust an `Err` return leaves the writer (and the bytes it already wrote)
  alive in the caller's hands; bytes are never rolled back.
-/

/-- Modelled from the spec: Coordinate Dimensionality (`CoordDimensions`, not
under `src/`) — four independent boolean channels Z/M/T/TM; default only X/Y
active; `xyz()` activates Z. -/
structure CoordDimensions where
  z : Bool
  m : Bool
  t : Bool
  tm : Bool
deriving Repr, DecidableEq

def CoordDimensions.default : CoordDimensions :=
  { z := false, m := false, t := false, tm := false }

def CoordDimensions.xyz : CoordDimensions :=
  { z := true, m := false, t := false, tm := false }

/-- Modelled from the spec: the error enum (`crate::error`, not under `src/`).
All the writer can raise is a propagated I/O failure of the byte sink. -/
inductive GeozeroError where
  | IoError
deriving Repr, DecidableEq

/-- The abstract byte sink `W: Write`: accepted bytes plus a failure oracle. -/
structure OutState where
  buf : String
  failAfter : Option Nat
deriving Repr, DecidableEq

/-- `std::io::Write::write_all`: appends the whole chunk and succeeds, or
fails (per the oracle) leaving the buffer untouched. -/
def OutState.write_all (o : OutState) (s : String) : OutState × Except GeozeroError Unit :=
  match o.failAfter with
  | none => ({ o with buf := o.buf ++ s }, .ok ())
  | some 0 => (o, .error .IoError)
  | some (k+1) => ({ buf := o.buf ++ s, failAfter := some k }, .ok ())

/-- `GeoJsonWriter<W>`: current dimensionality plus exclusive ownership of the
byte output (geojson_writer.rs lines 7–10). -/
structure GeoJsonWriter where
  dims : CoordDimensions
  out : OutState
deriving Repr, DecidableEq

/-- `GeoJsonWriter::new(out)` (line 13): default dimensionality. -/
def GeoJsonWriter.new (out : OutState) : GeoJsonWriter :=
  { dims := CoordDimensions.default, out := out }

/-- `GeoJsonWriter::with_dims(out, dims)` (line 19). -/
def GeoJsonWriter.with_dims (out : OutState) (dims : CoordDimensions) : GeoJsonWriter :=
  { dims := dims, out := out }

/-- Sequencing of two fallible steps, the meaning of Rust's `?`: on error the
writer state reached so far is kept and the error is returned at once. -/
def seq {α : Type} (p : GeoJsonWriter × Except GeozeroError Unit)
    (f : GeoJsonWriter → GeoJsonWriter × Except GeozeroError α) :
    GeoJsonWriter × Except GeozeroError α :=
  match p with
  | (w, .ok _) => f w
  | (w, .error e) => (w, .error e)

/-- `self.out.write_all(..)` lifted to the writer. -/
def GeoJsonWriter.writeOut (w : GeoJsonWriter) (s : String) :
    GeoJsonWriter × Except GeozeroError Unit :=
  let (o, r) := w.out.write_all s
  ({ w with out := o }, r)

/-- Re-attach an output-level step's result to the writer. -/
def liftOut (w : GeoJsonWriter) (p : OutState × Except GeozeroError Unit) :
    GeoJsonWriter × Except GeozeroError Unit :=
  ({ w with out := p.1 }, p.2)

/-- `GeoJsonWriter::comma` (lines 22–27): write `,` iff `idx > 0`. -/
def GeoJsonWriter.comma (w : GeoJsonWriter) (idx : Nat) :
    GeoJsonWriter × Except GeozeroError Unit :=
  if idx > 0 then w.writeOut "," else (w, .ok ())

/-- `GeomProcessor::dimensions` (lines 78–80). -/
def GeoJsonWriter.dimensions (w : GeoJsonWriter) : CoordDimensions :=
  w.dims

/-- `GeomProcessor::xy` (lines 81–85). -/
def GeoJsonWriter.xy (w : GeoJsonWriter) (x y : String) (idx : Nat) :
    GeoJsonWriter × Except GeozeroError Unit :=
  seq (w.comma idx) fun w =>
  w.writeOut ("[" ++ x ++ "," ++ y ++ "]")

/-- `GeomProcessor::coordinate` (lines 86–103): writes `[x,y`, then `,z` iff a
`z` is supplied (the `m`, `t`, `tm` arguments are ignored), then `]`. -/
def GeoJsonWriter.coordinate (w : GeoJsonWriter) (x y : String)
    (z _m _t : Option String) (_tm : Option Nat) (idx : Nat) :
    GeoJsonWriter × Except GeozeroError Unit :=
  seq (w.comma idx) fun w =>
  seq (w.writeOut ("[" ++ x ++ "," ++ y)) fun w =>
  seq (match z with
    | some z => w.writeOut ("," ++ z)
    | none => (w, .ok ())) fun w =>
  w.writeOut "]"

/-- `GeomProcessor::point_begin` (lines 104–109). -/
def GeoJsonWriter.point_begin (w : GeoJsonWriter) (idx : Nat) :
    GeoJsonWriter × Except GeozeroError Unit :=
  seq (w.comma idx) fun w =>
  w.writeOut "\x7b\"type\": \"Point\", \"coordinates\": "

/-- `GeomProcessor::point_end` (lines 110–113). -/
def GeoJsonWriter.point_end (w : GeoJsonWriter) (_idx : Nat) :
    GeoJsonWriter × Except GeozeroError Unit :=
  w.writeOut "\x7d"

/-- `GeomProcessor::linestring_begin` (lines 124–133). -/
def GeoJsonWriter.linestring_begin (w : GeoJsonWriter) (tagged : Bool)
    (_size idx : Nat) : GeoJsonWriter × Except GeozeroError Unit :=
  seq (w.comma idx) fun w =>
  if tagged then
    w.writeOut "\x7b\"type\": \"LineString\", \"coordinates\": ["
  else
    w.writeOut "["

/-- `GeomProcessor::linestring_end` (lines 134–141). -/
def GeoJsonWriter.linestring_end (w : GeoJsonWriter) (tagged : Bool) (_idx : Nat) :
    GeoJsonWriter × Except GeozeroError Unit :=
  if tagged then w.writeOut "]\x7d" else w.writeOut "]"

/-- `GeomProcessor::polygon_begin` (lines 152–161). -/
def GeoJsonWriter.polygon_begin (w : GeoJsonWriter) (tagged : Bool)
    (_size idx : Nat) : GeoJsonWriter × Except GeozeroError Unit :=
  seq (w.comma idx) fun w =>
  if tagged then
    w.writeOut "\x7b\"type\": \"Polygon\", \"coordinates\": ["
  else
    w.writeOut "["

/-- `GeomProcessor::polygon_end` (lines 162–169). -/
def GeoJsonWriter.polygon_end (w : GeoJsonWriter) (tagged : Bool) (_idx : Nat) :
    GeoJsonWriter × Except GeozeroError Unit :=
  if tagged then w.writeOut "]\x7d" else w.writeOut "]"

/-- `FeatureProcessor::feature_begin` (lines 49–55): `,\n` iff `idx > 0`, then
the feature header. -/
def GeoJsonWriter.feature_begin (w : GeoJsonWriter) (idx : Nat) :
    GeoJsonWriter × Except GeozeroError Unit :=
  seq (if idx > 0 then w.writeOut ",\n" else (w, .ok ())) fun w =>
  w.writeOut "\x7b\"type\": \"Feature\""

/-- Modelled from the spec: the Attribute Value tagged union (`ColumnValue`,
not under `src/`) — the closed set of kinds the writer's `property` matches on.
Integer payloads are `Int`/`Nat` (whose decimal `Display` text `toString`
reproduces); float payloads are modelled by their `Display` text. -/
inductive ColumnValue where
  | Byte (v : Int)
  | UByte (v : Nat)
  | Bool (v : Bool)
  | Short (v : Int)
  | UShort (v : Nat)
  | Int (v : Int)
  | UInt (v : Nat)
  | Long (v : Int)
  | ULong (v : Nat)
  | Float (v : String)
  | Double (v : String)
  | String (v : String)
  | Json (v : String)
  | DateTime (v : String)
  | Binary (v : List Nat)
deriving Repr, DecidableEq

/-- `str::replace(s, '\"', "\\\"")` on the character list: every `"` becomes
`\"`, every other character is kept as is. -/
def escapeQuoteList : List Char → String
  | [] => ""
  | c :: cs => (if c = '"' then "\\\"" else String.singleton c) ++ escapeQuoteList cs

/-- `colname.replace('\"', "\\\"")` as used by both property writers. -/
def escapeQuote (s : String) : String :=
  escapeQuoteList s.data

/-- `write_num_prop` (lines 192–196): `"name": v` with the name
quote-escaped; `v` is the `Display` text of the numeric value. -/
def write_num_prop (o : OutState) (colname v : String) :
    OutState × Except GeozeroError Unit :=
  o.write_all ("\"" ++ escapeQuote colname ++ "\": " ++ v)

/-- `write_str_prop` (lines 198–203): `"name": "value"` with both the name and
the value quote-escaped. -/
def write_str_prop (o : OutState) (colname v : String) :
    OutState × Except GeozeroError Unit :=
  o.write_all ("\"" ++ escapeQuote colname ++ "\": \"" ++ escapeQuote v ++ "\"")

/-- `PropertyProcessor::property` (lines 205–230): `, ` separator for `i > 0`,
then the value by kind — numeric kinds through `write_num_prop` with their
`Display` text, string/date-time through `write_str_prop`, `Json`/`Binary`
nothing at all — and finally `Ok(false)`. -/
def GeoJsonWriter.property (w : GeoJsonWriter) (i : Nat) (colname : String)
    (colval : ColumnValue) : GeoJsonWriter × Except GeozeroError Bool :=
  seq (if i > 0 then w.writeOut ", " else (w, .ok ())) fun w =>
  seq (liftOut w (match colval with
    | .Byte v => write_num_prop w.out colname (toString v)
    | .UByte v => write_num_prop w.out colname (toString v)
    | .Bool v => write_num_prop w.out colname (if v then "true" else "false")
    | .Short v => write_num_prop w.out colname (toString v)
    | .UShort v => write_num_prop w.out colname (toString v)
    | .Int v => write_num_prop w.out colname (toString v)
    | .UInt v => write_num_prop w.out colname (toString v)
    | .Long v => write_num_prop w.out colname (toString v)
    | .ULong v => write_num_prop w.out colname (toString v)
    | .Float v => write_num_prop w.out colname v
    | .Double v => write_num_prop w.out colname v
    | .String v => write_str_prop w.out colname v
    | .DateTime v => write_str_prop w.out colname v
    | .Json _ => (w.out, .ok ())
    | .Binary _ => (w.out, .ok ()))) fun w =>
  (w, .ok false)

/-- A driver emitting a sibling sequence of `xy` leaf events with zero-based
indices starting at `i`, per the grammar of §3/§4.1. -/
def driveXYFrom (w : GeoJsonWriter) (i : Nat) :
    List (String × String) → GeoJsonWriter × Except GeozeroError Unit
  | [] => (w, .ok ())
  | p :: ps => seq (w.xy p.1 p.2 i) fun w => driveXYFrom w (i+1) ps

/-- A full sibling sequence: indices `0 .. n-1`. -/
def driveXYs (w : GeoJsonWriter) (pts : List (String × String)) :
    GeoJsonWriter × Except GeozeroError Unit :=
  driveXYFrom w 0 pts

/-- A driver emitting one complete linestring: `linestring_begin`, its
coordinates as siblings indexed from `0`, `linestring_end`. -/
def renderLinestring (w : GeoJsonWriter) (tagged : Bool)
    (pts : List (String × String)) (idx : Nat) :
    GeoJsonWriter × Except GeozeroError Unit :=
  seq (w.linestring_begin tagged pts.length idx) fun w =>
  seq (driveXYFrom w 0 pts) fun w =>
  w.linestring_end tagged idx

/-- Modelled from the spec: the foreign-object-building sink (`GdalWriter`,
not under `src/`) — dimensionality plus the foreign geometry object being
built, here an opaque stand-in value whose structure no claim inspects. -/
structure GdalWriter where
  dims : CoordDimensions
  geom : Nat
deriving Repr, DecidableEq

/-- Modelled from the spec: `GdalWriter::new()` — fresh sink with default
dimensionality and an empty foreign object. -/
def GdalWriter.new : GdalWriter :=
  { dims := CoordDimensions.default, geom := 0 }

/-- Modelled from the spec: a value with the self-description capability
(`GeozeroGeometry`, not under `src/`): `process_geom` drives the sink with the
value's own event sequence, transforming the sink's state or failing with the
first error. -/
structure GeozeroSource where
  process_geom : GdalWriter → Except GeozeroError GdalWriter

/-- `ToGdal::to_gdal_ndim` (gdal/mod.rs lines 26–31): fresh `GdalWriter`, set
its dims, drive it with the source's self-description, return the built
geometry or the first error. -/
def to_gdal_ndim (g : GeozeroSource) (dims : CoordDimensions) :
    Except GeozeroError Nat :=
  match g.process_geom { GdalWriter.new with dims := dims } with
  | .error e => .error e
  | .ok gdal => .ok gdal.geom

/-- `ToGdal::to_gdal` (gdal/mod.rs lines 23–25): convert with default
dimensionality. -/
def to_gdal (g : GeozeroSource) : Except GeozeroError Nat :=
  to_gdal_ndim g CoordDimensions.default

/-! ### Statement-side helper definitions -/

/-- The separator `comma` emits at a given sibling index. -/
def commaSep (idx : Nat) : String :=
  if 0 < idx then "," else ""

/-- The optional `,z` tail `coordinate` emits. -/
def zTail : Option String → String
  | some zv => "," ++ zv
  | none => ""

/-- The bytes one `xy` event at sibling index `i` emits. -/
def xyChunk (i : Nat) (p : String × String) : String :=
  commaSep i ++ ("[" ++ p.1 ++ "," ++ p.2 ++ "]")

/-- The bytes a sibling sequence of `xy` events, indexed from `i`, emits. -/
def xyChunksFrom (i : Nat) : List (String × String) → String
  | [] => ""
  | p :: ps => xyChunk i p ++ xyChunksFrom (i+1) ps

/-- The bytes a sibling sequence of untagged rings, indexed from `i`, emits. -/
def ringChunksFrom (i : Nat) : List (List (String × String)) → String
  | [] => ""
  | r :: rs => (commaSep i ++ ("[" ++ xyChunksFrom 0 r ++ "]")) ++ ringChunksFrom (i+1) rs

/-- A driver emitting a polygon's rings: each ring is an untagged linestring
at its sibling index, per §4.1. -/
def drivePolyRingsFrom (w : GeoJsonWriter) (i : Nat) :
    List (List (String × String)) → GeoJsonWriter × Except GeozeroError Unit
  | [] => (w, .ok ())
  | r :: rs => seq (renderLinestring w false r i) fun w => drivePolyRingsFrom w (i+1) rs

/-- A driver emitting one complete polygon: `polygon_begin`, its rings as
untagged linestrings indexed from `0`, `polygon_end`. -/
def renderPolygon (w : GeoJsonWriter) (tagged : Bool)
    (rings : List (List (String × String))) (idx : Nat) :
    GeoJsonWriter × Except GeozeroError Unit :=
  seq (w.polygon_begin tagged rings.length idx) fun w =>
  seq (drivePolyRingsFrom w 0 rings) fun w =>
  w.polygon_end tagged idx

/-- `needle` occurs verbatim somewhere in `hay`. -/
def appearsIn (needle hay : String) : Prop :=
  ∃ pre post, hay = pre ++ needle ++ post

/-- Expected outcome of a successful `property` call on a non-failing
transport: separator for a positive index, the rendered pair, `Ok(false)`. -/
def propOut (d : CoordDimensions) (b : String) (i : Nat) (rendered : String) :
    GeoJsonWriter × Except GeozeroError Bool :=
  (⟨d, ⟨b ++ (if 0 < i then ", " else "") ++ rendered, none⟩⟩, .ok false)

/-- `w'` holds everything `w` had written, plus possibly more: nothing was
rolled back. -/
def bufExtends (w' w : GeoJsonWriter) : Prop :=
  ∃ s, w'.out.buf = w.out.buf ++ s

/-! ### Basic string and sequencing lemmas -/

theorem strext (a b : String) (h : a.data = b.data) : a = b := by
  cases a; cases b; exact congrArg String.mk h

theorem strdata (a b : String) : (a ++ b).data = a.data ++ b.data := rfl

theorem strassoc (a b c : String) : a ++ b ++ c = a ++ (b ++ c) := by
  apply strext; simp [strdata]

theorem strnil (a : String) : a ++ "" = a := by
  apply strext; simp [strdata]

theorem str_empty_append (a : String) : "" ++ a = a := by
  apply strext; simp [strdata]

theorem seq_ok {α : Type} (w : GeoJsonWriter)
    (f : GeoJsonWriter → GeoJsonWriter × Except GeozeroError α) :
    seq (w, .ok ()) f = f w := rfl

theorem seq_error {α : Type} (w : GeoJsonWriter) (e : GeozeroError)
    (f : GeoJsonWriter → GeoJsonWriter × Except GeozeroError α) :
    seq (w, .error e) f = (w, .error e) := rfl

theorem writeOut_ok (d : CoordDimensions) (b s : String) :
    GeoJsonWriter.writeOut ⟨d, ⟨b, none⟩⟩ s = (⟨d, ⟨b ++ s, none⟩⟩, .ok ()) := rfl

theorem comma_ok (d : CoordDimensions) (b : String) (idx : Nat) :
    GeoJsonWriter.comma ⟨d, ⟨b, none⟩⟩ idx
      = (⟨d, ⟨b ++ commaSep idx, none⟩⟩, .ok ()) := by
  by_cases h : 0 < idx
  · simp [GeoJsonWriter.comma, commaSep, h, writeOut_ok]
  · simp [GeoJsonWriter.comma, commaSep, h, strnil]

theorem xy_ok (d : CoordDimensions) (b x y : String) (idx : Nat) :
    GeoJsonWriter.xy ⟨d, ⟨b, none⟩⟩ x y idx
      = (⟨d, ⟨b ++ commaSep idx ++ ("[" ++ x ++ "," ++ y ++ "]"), none⟩⟩, .ok ()) := by
  rw [GeoJsonWriter.xy, comma_ok, seq_ok, writeOut_ok]

theorem coordinate_ok (d : CoordDimensions) (b x y : String)
    (z m t : Option String) (tm : Option Nat) (idx : Nat) :
    GeoJsonWriter.coordinate ⟨d, ⟨b, none⟩⟩ x y z m t tm idx
      = (⟨d, ⟨b ++ commaSep idx ++ ("[" ++ x ++ "," ++ y) ++ zTail z ++ "]", none⟩⟩,
         .ok ()) := by
  cases z with
  | none =>
      simp only [GeoJsonWriter.coordinate, comma_ok, seq_ok, writeOut_ok, zTail, strnil]
  | some zv =>
      simp only [GeoJsonWriter.coordinate, comma_ok, seq_ok, writeOut_ok, zTail]

theorem linestring_begin_ok (d : CoordDimensions) (b : String) (tagged : Bool)
    (s idx : Nat) :
    GeoJsonWriter.linestring_begin ⟨d, ⟨b, none⟩⟩ tagged s idx
      = (⟨d, ⟨b ++ commaSep idx
            ++ (if tagged then "\x7b\"type\": \"LineString\", \"coordinates\": [" else "["),
          none⟩⟩, .ok ()) := by
  cases tagged <;>
    simp only [GeoJsonWriter.linestring_begin, comma_ok, seq_ok, writeOut_ok,
      Bool.false_eq_true, if_true, if_false, ite_true, ite_false]

theorem linestring_end_ok (d : CoordDimensions) (b : String) (tagged : Bool)
    (idx : Nat) :
    GeoJsonWriter.linestring_end ⟨d, ⟨b, none⟩⟩ tagged idx
      = (⟨d, ⟨b ++ (if tagged then "]\x7d" else "]"), none⟩⟩, .ok ()) := by
  cases tagged <;>
    simp only [GeoJsonWriter.linestring_end, writeOut_ok,
      Bool.false_eq_true, if_true, if_false, ite_true, ite_false]

theorem polygon_begin_ok (d : CoordDimensions) (b : String) (tagged : Bool)
    (s idx : Nat) :
    GeoJsonWriter.polygon_begin ⟨d, ⟨b, none⟩⟩ tagged s idx
      = (⟨d, ⟨b ++ commaSep idx
            ++ (if tagged then "\x7b\"type\": \"Polygon\", \"coordinates\": [" else "["),
          none⟩⟩, .ok ()) := by
  cases tagged <;>
    simp only [GeoJsonWriter.polygon_begin, comma_ok, seq_ok, writeOut_ok,
      Bool.false_eq_true, if_true, if_false, ite_true, ite_false]

theorem polygon_end_ok (d : CoordDimensions) (b : String) (tagged : Bool)
    (idx : Nat) :
    GeoJsonWriter.polygon_end ⟨d, ⟨b, none⟩⟩ tagged idx
      = (⟨d, ⟨b ++ (if tagged then "]\x7d" else "]"), none⟩⟩, .ok ()) := by
  cases tagged <;>
    simp only [GeoJsonWriter.polygon_end, writeOut_ok,
      Bool.false_eq_true, if_true, if_false, ite_true, ite_false]

theorem feature_begin_ok (d : CoordDimensions) (b : String) (idx : Nat) :
    GeoJsonWriter.feature_begin ⟨d, ⟨b, none⟩⟩ idx
      = (⟨d, ⟨b ++ (if 0 < idx then ",\n" else "") ++ "\x7b\"type\": \"Feature\"",
          none⟩⟩, .ok ()) := by
  by_cases h : 0 < idx
  · simp [GeoJsonWriter.feature_begin, h, writeOut_ok, seq_ok]
  · simp [GeoJsonWriter.feature_begin, h, writeOut_ok, seq_ok, strnil]

theorem driveXYFrom_ok (d : CoordDimensions) (pts : List (String × String)) :
    ∀ (b : String) (i : Nat),
      driveXYFrom ⟨d, ⟨b, none⟩⟩ i pts
        = (⟨d, ⟨b ++ xyChunksFrom i pts, none⟩⟩, .ok ()) := by
  induction pts with
  | nil => intro b i; simp [driveXYFrom, xyChunksFrom, strnil]
  | cons p ps ih =>
      intro b i
      simp only [driveXYFrom, xy_ok, seq_ok, ih, xyChunksFrom, xyChunk]
      simp [strassoc]

theorem driveXYs_ok (d : CoordDimensions) (b : String)
    (pts : List (String × String)) :
    driveXYs ⟨d, ⟨b, none⟩⟩ pts
      = (⟨d, ⟨b ++ xyChunksFrom 0 pts, none⟩⟩, .ok ()) := by
  simp [driveXYs, driveXYFrom_ok]

theorem renderLinestring_ok (d : CoordDimensions) (b : String) (tagged : Bool)
    (pts : List (String × String)) (idx : Nat) :
    renderLinestring ⟨d, ⟨b, none⟩⟩ tagged pts idx
      = (⟨d, ⟨b ++ commaSep idx
            ++ (if tagged then "\x7b\"type\": \"LineString\", \"coordinates\": [" else "[")
            ++ xyChunksFrom 0 pts
            ++ (if tagged then "]\x7d" else "]"), none⟩⟩, .ok ()) := by
  simp only [renderLinestring, linestring_begin_ok, seq_ok, driveXYFrom_ok,
    linestring_end_ok]

theorem drivePolyRingsFrom_ok (d : CoordDimensions)
    (rings : List (List (String × String))) :
    ∀ (b : String) (i : Nat),
      drivePolyRingsFrom ⟨d, ⟨b, none⟩⟩ i rings
        = (⟨d, ⟨b ++ ringChunksFrom i rings, none⟩⟩, .ok ()) := by
  induction rings with
  | nil => intro b i; simp [drivePolyRingsFrom, ringChunksFrom, strnil]
  | cons r rs ih =>
      intro b i
      simp only [drivePolyRingsFrom, renderLinestring_ok, seq_ok, ih, ringChunksFrom,
        Bool.false_eq_true, if_false, ite_false]
      simp [strassoc]

theorem renderPolygon_ok (d : CoordDimensions) (b : String) (tagged : Bool)
    (rings : List (List (String × String))) (idx : Nat) :
    renderPolygon ⟨d, ⟨b, none⟩⟩ tagged rings idx
      = (⟨d, ⟨b ++ commaSep idx
            ++ (if tagged then "\x7b\"type\": \"Polygon\", \"coordinates\": [" else "[")
            ++ ringChunksFrom 0 rings
            ++ (if tagged then "]\x7d" else "]"), none⟩⟩, .ok ()) := by
  simp only [renderPolygon, polygon_begin_ok, seq_ok, drivePolyRingsFrom_ok,
    polygon_end_ok]

theorem write_num_prop_ok (b name v : String) :
    write_num_prop ⟨b, none⟩ name v
      = (⟨b ++ ("\"" ++ escapeQuote name ++ "\": " ++ v), none⟩, .ok ()) := rfl

theorem write_str_prop_ok (b name v : String) :
    write_str_prop ⟨b, none⟩ name v
      = (⟨b ++ ("\"" ++ escapeQuote name ++ "\": \"" ++ escapeQuote v ++ "\""), none⟩,
         .ok ()) := rfl

theorem propSep_ok (d : CoordDimensions) (b : String) (i : Nat) :
    (if 0 < i then GeoJsonWriter.writeOut ⟨d, ⟨b, none⟩⟩ ", "
     else ((⟨d, ⟨b, none⟩⟩ : GeoJsonWriter), Except.ok ()))
      = ((⟨d, ⟨b ++ (if 0 < i then ", " else ""), none⟩⟩ : GeoJsonWriter), .ok ()) := by
  by_cases h : 0 < i
  · simp [h, writeOut_ok]
  · simp [h, strnil]

theorem escapeQuoteList_append (l1 l2 : List Char) :
    escapeQuoteList (l1 ++ l2) = escapeQuoteList l1 ++ escapeQuoteList l2 := by
  induction l1 with
  | nil => simp [escapeQuoteList, str_empty_append]
  | cons c cs ih => simp [escapeQuoteList, ih, strassoc]

theorem escapeQuoteList_no_quote (l : List Char) (h : ∀ c ∈ l, c ≠ '"') :
    escapeQuoteList l = ⟨l⟩ := by
  induction l with
  | nil => rfl
  | cons c cs ih =>
      have hc : c ≠ '"' := h c (by simp)
      have ihh := ih (fun c hm => h c (by simp [hm]))
      simp only [escapeQuoteList, hc, if_false, ite_false, ihh]
      apply strext
      simp [strdata, String.singleton]

theorem escapeQuote_no_quote (s : String) (h : ∀ c ∈ s.data, c ≠ '"') :
    escapeQuote s = s := by
  rw [escapeQuote, escapeQuoteList_no_quote s.data h]

theorem escapeQuote_embedded (a b : String) :
    escapeQuote (a ++ "\"" ++ b) = escapeQuote a ++ "\\\"" ++ escapeQuote b := by
  rw [escapeQuote, strdata, strdata, escapeQuoteList_append, escapeQuoteList_append]
  have hq : escapeQuoteList ("\"").data = "\\\"" := by
    simp [escapeQuoteList, strnil]
  rw [hq, escapeQuote, escapeQuote]

theorem write_all_result (o : OutState) (s : String) :
    (o.write_all s).2 = .ok () ∨ (o.write_all s).2 = .error .IoError := by
  rcases o with ⟨b, fa⟩
  cases fa with
  | none => exact Or.inl rfl
  | some n =>
      cases n with
      | zero => exact Or.inr rfl
      | succ k => exact Or.inl rfl

theorem writeOut_result (w : GeoJsonWriter) (s : String) :
    (w.writeOut s).2 = .ok () ∨ (w.writeOut s).2 = .error .IoError :=
  write_all_result w.out s

theorem seq_result (p : GeoJsonWriter × Except GeozeroError Unit)
    (f : GeoJsonWriter → GeoJsonWriter × Except GeozeroError Bool)
    (hp : p.2 = .ok () ∨ p.2 = .error .IoError)
    (hf : ∀ w', (f w').2 = .ok false ∨ (f w').2 = .error .IoError) :
    (seq p f).2 = .ok false ∨ (seq p f).2 = .error .IoError := by
  rcases p with ⟨w1, r1⟩
  rcases hp with h | h
  · simp only at h
    rw [h, seq_ok]
    exact hf w1
  · simp only at h
    rw [h, seq_error]
    exact Or.inr rfl

theorem bufExtends_refl (w : GeoJsonWriter) : bufExtends w w :=
  ⟨"", (strnil _).symm⟩

theorem bufExtends_trans {w1 w2 w3 : GeoJsonWriter}
    (h1 : bufExtends w2 w1) (h2 : bufExtends w3 w2) : bufExtends w3 w1 := by
  obtain ⟨s, hs⟩ := h1
  obtain ⟨t, ht⟩ := h2
  exact ⟨s ++ t, by rw [ht, hs, strassoc]⟩

theorem writeOut_extendsBuf (w : GeoJsonWriter) (s : String) :
    bufExtends (w.writeOut s).1 w := by
  rcases w with ⟨d, ⟨b, fa⟩⟩
  cases fa with
  | none => exact ⟨s, rfl⟩
  | some n =>
      cases n with
      | zero => exact ⟨"", (strnil _).symm⟩
      | succ k => exact ⟨s, rfl⟩

theorem seq_extendsBuf {α : Type} (p : GeoJsonWriter × Except GeozeroError Unit)
    (f : GeoJsonWriter → GeoJsonWriter × Except GeozeroError α) (w : GeoJsonWriter)
    (hp : bufExtends p.1 w) (hf : ∀ w', bufExtends (f w').1 w') :
    bufExtends (seq p f).1 w := by
  rcases p with ⟨w1, r1⟩
  cases r1 with
  | ok u => exact bufExtends_trans hp (hf w1)
  | error e => exact hp

theorem comma_extendsBuf (w : GeoJsonWriter) (idx : Nat) :
    bufExtends (w.comma idx).1 w := by
  by_cases h : idx > 0
  · simp only [GeoJsonWriter.comma, h, if_true, ite_true]
    exact writeOut_extendsBuf w ","
  · simp only [GeoJsonWriter.comma, h, if_false, ite_false]
    exact bufExtends_refl w

theorem coordinate_extendsBuf (w : GeoJsonWriter) (x y : String)
    (z m t : Option String) (tm : Option Nat) (idx : Nat) :
    bufExtends (w.coordinate x y z m t tm idx).1 w := by
  unfold GeoJsonWriter.coordinate
  apply seq_extendsBuf _ _ _ (comma_extendsBuf w idx)
  intro w1
  apply seq_extendsBuf _ _ _ (writeOut_extendsBuf w1 _)
  intro w2
  apply seq_extendsBuf
  · cases z with
    | some zv => exact writeOut_extendsBuf w2 _
    | none => exact bufExtends_refl w2
  · intro w3
    exact writeOut_extendsBuf w3 _

theorem property_extendsBuf (w : GeoJsonWriter) (i : Nat) (name : String)
    (v : ColumnValue) : bufExtends (w.property i name v).1 w := by
  unfold GeoJsonWriter.property
  apply seq_extendsBuf
  · by_cases h : i > 0
    · simp only [h, if_true, ite_true]
      exact writeOut_extendsBuf w ", "
    · simp only [h, if_false, ite_false]
      exact bufExtends_refl w
  · intro w1
    apply seq_extendsBuf
    · cases v <;>
        first
          | exact writeOut_extendsBuf w1 _
          | exact bufExtends_refl w1
    · intro w2
      exact bufExtends_refl w2

theorem comma_len (d : CoordDimensions) (i : Nat) :
    ((GeoJsonWriter.comma ⟨d, ⟨"", none⟩⟩ i).1.out.buf).length
      = if 0 < i then 1 else 0 := by
  by_cases h : 0 < i
  · simp [comma_ok, commaSep, h, str_empty_append]
    rfl
  · simp [comma_ok, commaSep, h, str_empty_append]

theorem comma_len_total (d : CoordDimensions) (n : Nat) :
    (((List.range n).map fun i =>
        ((GeoJsonWriter.comma ⟨d, ⟨"", none⟩⟩ i).1.out.buf).length)).sum = n - 1 := by
  induction n with
  | zero => simp
  | succ k ih =>
      rw [List.range_succ, List.map_append, List.sum_append, ih]
      simp only [List.map_cons, List.map_nil, List.sum_cons, List.sum_nil, comma_len]
      cases k with
      | zero => simp
      | succ j => simp [Nat.succ_sub_one]

/-! ### Claim theorems -/

/-- C1 counterexample: with the default dimensionality (only X/Y active,
`z = false`), a Z value supplied to `coordinate` *does* appear in the rendered
output — the claim's "never appears" half is false on the code, which writes
any supplied Z without consulting the dimensionality. -/
theorem coordinate_z_gating_cex :
    CoordDimensions.default.z = false ∧
    appearsIn "9"
      (((GeoJsonWriter.new ⟨"", none⟩).coordinate "1" "2" (some "9")
          none none none 0).1.out.buf) ∧
    ((GeoJsonWriter.new ⟨"", none⟩).coordinate "1" "2" (some "9")
        none none none 0).1.out.buf
      ≠ ((GeoJsonWriter.new ⟨"", none⟩).coordinate "1" "2" none
          none none none 0).1.out.buf := by
  refine ⟨rfl, ⟨"[1,2,", "]", by decide⟩, by decide⟩

/-- C1 (amended): the sink renders a supplied Z value unconditionally — for
every dimensionality (in particular with the Z channel active, but also with
only X/Y active) a supplied Z always appears in the rendered output; gating Z
to the active channels is the driver's obligation, not enforced by the sink. -/
theorem coordinate_renders_supplied_z (d : CoordDimensions) (b x y zv : String)
    (m t : Option String) (tm : Option Nat) (idx : Nat) :
    (GeoJsonWriter.coordinate ⟨d, ⟨b, none⟩⟩ x y (some zv) m t tm idx).1.out.buf
        = b ++ commaSep idx ++ ("[" ++ x ++ "," ++ y) ++ ("," ++ zv) ++ "]" ∧
    appearsIn zv
      ((GeoJsonWriter.coordinate ⟨d, ⟨b, none⟩⟩ x y (some zv) m t tm idx).1.out.buf) := by
  constructor
  · rw [coordinate_ok]
    rfl
  · refine ⟨b ++ commaSep idx ++ ("[" ++ x ++ "," ++ y) ++ ",", "]", ?_⟩
    rw [coordinate_ok]
    simp [zTail, strassoc]

/-- C2 counterexample: a blob-kind property call at index 1 does write bytes
to the output — the two-byte separator `, ` — so "writes nothing at any
index" is false on the code. -/
theorem property_blob_cex :
    ((GeoJsonWriter.new ⟨"", none⟩).property 1 "a" (ColumnValue.Json "x")).1.out.buf
        = ", " ∧
    (", " : String) ≠ "" := by
  exact ⟨by decide, by decide⟩

/-- C2 (amended): a blob-kind (`Json` or `Binary`) property call renders
nothing for the property itself — no name and no value — and, when the
underlying writes succeed, does not fail and returns the continuation signal
`false`; however at index > 0 the leading `, ` separator is still written
before the dropped property. -/
theorem property_blob_separator_only (d : CoordDimensions) (b : String) (i : Nat)
    (name pay : String) (bin : List Nat) :
    GeoJsonWriter.property ⟨d, ⟨b, none⟩⟩ i name (ColumnValue.Json pay)
        = (⟨d, ⟨b ++ (if 0 < i then ", " else ""), none⟩⟩, .ok false) ∧
    GeoJsonWriter.property ⟨d, ⟨b, none⟩⟩ i name (ColumnValue.Binary bin)
        = (⟨d, ⟨b ++ (if 0 < i then ", " else ""), none⟩⟩, .ok false) := by
  constructor <;>
    simp only [GeoJsonWriter.property, gt_iff_lt, propSep_ok, seq_ok, liftOut]

/-- C6: `xy(x, y, idx)` produces exactly the same output bytes and the same
result as `coordinate(x, y, None, None, None, None, idx)`, on any non-failing
transport, from any prior output and any dimensionality. -/
theorem xy_eq_coordinate_no_opts (d : CoordDimensions) (b x y : String) (idx : Nat) :
    GeoJsonWriter.xy ⟨d, ⟨b, none⟩⟩ x y idx
      = GeoJsonWriter.coordinate ⟨d, ⟨b, none⟩⟩ x y none none none none idx := by
  rw [xy_ok, coordinate_ok]
  simp [zTail, strnil, strassoc]

/-- C7: the `m`, `t` and `tm` arguments of `coordinate` have no effect
whatsoever on the writer's output or result — supplied M/T/TM values never
appear in the rendered output, whatever the dimensionality (in particular
even when those channels are active). -/
theorem coordinate_ignores_m_t_tm (w : GeoJsonWriter) (x y : String)
    (z m t : Option String) (tm : Option Nat) (idx : Nat) :
    w.coordinate x y z m t tm idx = w.coordinate x y z none none none idx := rfl

/-- C8: for every self-describing source, the default-dimensionality
conversion `to_gdal` returns the same result as the explicit-dimensionality
conversion `to_gdal_ndim` at the default dimensionality (only X/Y active). -/
theorem to_gdal_default_dims (g : GeozeroSource) :
    to_gdal g = to_gdal_ndim g CoordDimensions.default := rfl

/-- C3: separator emission is driven solely by the zero-based sibling index —
`comma` writes no separator at index 0 and exactly one `,` at any index > 0;
`feature_begin` does the same with `,\n`; a driven sibling sequence of `xy`
events renders as the concatenation of per-event chunks in which only the
events of positive index carry a leading separator; and over indices
`0 .. n-1` the total number of separator bytes the `comma` calls emit is
exactly `n - 1` (so `n = 0` and `n = 1` emit none). -/
theorem sibling_separator_emission :
    (∀ (d : CoordDimensions) (b : String) (idx : Nat),
       GeoJsonWriter.comma ⟨d, ⟨b, none⟩⟩ idx
         = (⟨d, ⟨b ++ (if 0 < idx then "," else ""), none⟩⟩, .ok ())) ∧
    (∀ (d : CoordDimensions) (b : String) (idx : Nat),
       GeoJsonWriter.feature_begin ⟨d, ⟨b, none⟩⟩ idx
         = (⟨d, ⟨b ++ (if 0 < idx then ",\n" else "")
               ++ "\x7b\"type\": \"Feature\"", none⟩⟩, .ok ())) ∧
    (∀ (d : CoordDimensions) (b : String) (pts : List (String × String)),
       driveXYs ⟨d, ⟨b, none⟩⟩ pts
         = (⟨d, ⟨b ++ xyChunksFrom 0 pts, none⟩⟩, .ok ())) ∧
    (∀ (i : Nat) (p : String × String),
       xyChunk i p = (if 0 < i then "," else "") ++ ("[" ++ p.1 ++ "," ++ p.2 ++ "]")) ∧
    (∀ (d : CoordDimensions) (n : Nat),
       (((List.range n).map fun i =>
           ((GeoJsonWriter.comma ⟨d, ⟨"", none⟩⟩ i).1.out.buf).length)).sum = n - 1) := by
  refine ⟨?_, ?_, ?_, ?_, ?_⟩
  · intro d b idx
    rw [comma_ok, commaSep]
  · intro d b idx
    rw [feature_begin_ok]
  · intro d b pts
    rw [driveXYs_ok]
  · intro i p
    rw [xyChunk, commaSep]
  · intro d n
    exact comma_len_total d n

/-- C4: `linestring_begin`/`polygon_begin` with `tagged=true` emit the
type-tagged prefix and with `tagged=false` a bare `[`; the matching `_end`
calls emit `]\x7d` resp. a bare `]`; a full linestring rendered tagged is
exactly the type-tag wrapper around the same linestring rendered untagged
(which is the bare bracket form, carrying no type tag); and a polygon renders
its untagged rings as bare bracket forms inside its own single type tag. -/
theorem tagged_untagged_rendering :
    (∀ (d : CoordDimensions) (b : String) (s idx : Nat),
       GeoJsonWriter.linestring_begin ⟨d, ⟨b, none⟩⟩ true s idx
         = (⟨d, ⟨b ++ commaSep idx
               ++ "\x7b\"type\": \"LineString\", \"coordinates\": [", none⟩⟩, .ok ())) ∧
    (∀ (d : CoordDimensions) (b : String) (s idx : Nat),
       GeoJsonWriter.linestring_begin ⟨d, ⟨b, none⟩⟩ false s idx
         = (⟨d, ⟨b ++ commaSep idx ++ "[", none⟩⟩, .ok ())) ∧
    (∀ (d : CoordDimensions) (b : String) (idx : Nat),
       GeoJsonWriter.linestring_end ⟨d, ⟨b, none⟩⟩ true idx
         = (⟨d, ⟨b ++ "]\x7d", none⟩⟩, .ok ())) ∧
    (∀ (d : CoordDimensions) (b : String) (idx : Nat),
       GeoJsonWriter.linestring_end ⟨d, ⟨b, none⟩⟩ false idx
         = (⟨d, ⟨b ++ "]", none⟩⟩, .ok ())) ∧
    (∀ (d : CoordDimensions) (b : String) (s idx : Nat),
       GeoJsonWriter.polygon_begin ⟨d, ⟨b, none⟩⟩ true s idx
         = (⟨d, ⟨b ++ commaSep idx
               ++ "\x7b\"type\": \"Polygon\", \"coordinates\": [", none⟩⟩, .ok ())) ∧
    (∀ (d : CoordDimensions) (b : String) (s idx : Nat),
       GeoJsonWriter.polygon_begin ⟨d, ⟨b, none⟩⟩ false s idx
         = (⟨d, ⟨b ++ commaSep idx ++ "[", none⟩⟩, .ok ())) ∧
    (∀ (d : CoordDimensions) (b : String) (idx : Nat),
       GeoJsonWriter.polygon_end ⟨d, ⟨b, none⟩⟩ true idx
         = (⟨d, ⟨b ++ "]\x7d", none⟩⟩, .ok ())) ∧
    (∀ (d : CoordDimensions) (b : String) (idx : Nat),
       GeoJsonWriter.polygon_end ⟨d, ⟨b, none⟩⟩ false idx
         = (⟨d, ⟨b ++ "]", none⟩⟩, .ok ())) ∧
    (∀ (d : CoordDimensions) (pts : List (String × String)),
       (renderLinestring ⟨d, ⟨"", none⟩⟩ false pts 0).1.out.buf
         = "[" ++ xyChunksFrom 0 pts ++ "]") ∧
    (∀ (d : CoordDimensions) (pts : List (String × String)),
       (renderLinestring ⟨d, ⟨"", none⟩⟩ true pts 0).1.out.buf
         = "\x7b\"type\": \"LineString\", \"coordinates\": "
           ++ (renderLinestring ⟨d, ⟨"", none⟩⟩ false pts 0).1.out.buf ++ "\x7d") ∧
    (∀ (d : CoordDimensions) (rings : List (List (String × String))),
       (renderPolygon ⟨d, ⟨"", none⟩⟩ true rings 0).1.out.buf
         = "\x7b\"type\": \"Polygon\", \"coordinates\": ["
           ++ ringChunksFrom 0 rings ++ "]\x7d") := by
  refine ⟨?_, ?_, ?_, ?_, ?_, ?_, ?_, ?_, ?_, ?_, ?_⟩
  · intro d b s idx; rw [linestring_begin_ok]; rfl
  · intro d b s idx; rw [linestring_begin_ok]; rfl
  · intro d b idx; rw [linestring_end_ok]; rfl
  · intro d b idx; rw [linestring_end_ok]; rfl
  · intro d b s idx; rw [polygon_begin_ok]; rfl
  · intro d b s idx; rw [polygon_begin_ok]; rfl
  · intro d b idx; rw [polygon_end_ok]; rfl
  · intro d b idx; rw [polygon_end_ok]; rfl
  · intro d pts
    rw [renderLinestring_ok]
    simp [commaSep, str_empty_append, strassoc]
  · intro d pts
    rw [renderLinestring_ok, renderLinestring_ok]
    have h1 : ("\x7b\"type\": \"LineString\", \"coordinates\": [" : String)
        = "\x7b\"type\": \"LineString\", \"coordinates\": " ++ "[" := by decide
    have h2 : ("]\x7d" : String) = "]" ++ "\x7d" := by decide
    simp only [commaSep, Nat.lt_irrefl, if_false, ite_false, str_empty_append, strnil]
    rw [h1, h2]
    simp only [Bool.false_eq_true, if_true, if_false, ite_true, ite_false, strassoc]
  · intro d rings
    rw [renderPolygon_ok]
    simp [commaSep, str_empty_append, strassoc]

/-- C5: numeric kinds render as `"name": v` with the value as a bare number
(its decimal/`Display` text, unquoted); `String`/`DateTime` kinds render name
and value as quoted strings; the quote-escaping transformation rewrites every
embedded `"` to `\"` and leaves every quote-free string completely
untouched (no other character is transformed). -/
theorem property_value_rendering :
    (∀ (d : CoordDimensions) (b : String) (i : Nat) (name : String) (v : Int),
       GeoJsonWriter.property ⟨d, ⟨b, none⟩⟩ i name (ColumnValue.Byte v)
         = propOut d b i ("\"" ++ escapeQuote name ++ "\": " ++ toString v)) ∧
    (∀ (d : CoordDimensions) (b : String) (i : Nat) (name : String) (v : Nat),
       GeoJsonWriter.property ⟨d, ⟨b, none⟩⟩ i name (ColumnValue.UByte v)
         = propOut d b i ("\"" ++ escapeQuote name ++ "\": " ++ toString v)) ∧
    (∀ (d : CoordDimensions) (b : String) (i : Nat) (name : String) (v : Bool),
       GeoJsonWriter.property ⟨d, ⟨b, none⟩⟩ i name (ColumnValue.Bool v)
         = propOut d b i ("\"" ++ escapeQuote name ++ "\": "
             ++ (if v then "true" else "false"))) ∧
    (∀ (d : CoordDimensions) (b : String) (i : Nat) (name : String) (v : Int),
       GeoJsonWriter.property ⟨d, ⟨b, none⟩⟩ i name (ColumnValue.Short v)
         = propOut d b i ("\"" ++ escapeQuote name ++ "\": " ++ toString v)) ∧
    (∀ (d : CoordDimensions) (b : String) (i : Nat) (name : String) (v : Nat),
       GeoJsonWriter.property ⟨d, ⟨b, none⟩⟩ i name (ColumnValue.UShort v)
         = propOut d b i ("\"" ++ escapeQuote name ++ "\": " ++ toString v)) ∧
    (∀ (d : CoordDimensions) (b : String) (i : Nat) (name : String) (v : Int),
       GeoJsonWriter.property ⟨d, ⟨b, none⟩⟩ i name (ColumnValue.Int v)
         = propOut d b i ("\"" ++ escapeQuote name ++ "\": " ++ toString v)) ∧
    (∀ (d : CoordDimensions) (b : String) (i : Nat) (name : String) (v : Nat),
       GeoJsonWriter.property ⟨d, ⟨b, none⟩⟩ i name (ColumnValue.UInt v)
         = propOut d b i ("\"" ++ escapeQuote name ++ "\": " ++ toString v)) ∧
    (∀ (d : CoordDimensions) (b : String) (i : Nat) (name : String) (v : Int),
       GeoJsonWriter.property ⟨d, ⟨b, none⟩⟩ i name (ColumnValue.Long v)
         = propOut d b i ("\"" ++ escapeQuote name ++ "\": " ++ toString v)) ∧
    (∀ (d : CoordDimensions) (b : String) (i : Nat) (name : String) (v : Nat),
       GeoJsonWriter.property ⟨d, ⟨b, none⟩⟩ i name (ColumnValue.ULong v)
         = propOut d b i ("\"" ++ escapeQuote name ++ "\": " ++ toString v)) ∧
    (∀ (d : CoordDimensions) (b : String) (i : Nat) (name : String) (v : String),
       GeoJsonWriter.property ⟨d, ⟨b, none⟩⟩ i name (ColumnValue.Float v)
         = propOut d b i ("\"" ++ escapeQuote name ++ "\": " ++ v)) ∧
    (∀ (d : CoordDimensions) (b : String) (i : Nat) (name : String) (v : String),
       GeoJsonWriter.property ⟨d, ⟨b, none⟩⟩ i name (ColumnValue.Double v)
         = propOut d b i ("\"" ++ escapeQuote name ++ "\": " ++ v)) ∧
    (∀ (d : CoordDimensions) (b : String) (i : Nat) (name : String) (v : String),
       GeoJsonWriter.property ⟨d, ⟨b, none⟩⟩ i name (ColumnValue.String v)
         = propOut d b i ("\"" ++ escapeQuote name ++ "\": \""
             ++ escapeQuote v ++ "\"")) ∧
    (∀ (d : CoordDimensions) (b : String) (i : Nat) (name : String) (v : String),
       GeoJsonWriter.property ⟨d, ⟨b, none⟩⟩ i name (ColumnValue.DateTime v)
         = propOut d b i ("\"" ++ escapeQuote name ++ "\": \""
             ++ escapeQuote v ++ "\"")) ∧
    (∀ (s : String), (∀ c ∈ s.data, c ≠ '"') → escapeQuote s = s) ∧
    (∀ (a b' : String),
       escapeQuote (a ++ "\"" ++ b') = escapeQuote a ++ "\\\"" ++ escapeQuote b') := by
  refine ⟨?_, ?_, ?_, ?_, ?_, ?_, ?_, ?_, ?_, ?_, ?_, ?_, ?_, ?_, ?_⟩
  case refine_14 => exact escapeQuote_no_quote
  case refine_15 => exact escapeQuote_embedded
  all_goals
    intro d b i name v
    simp only [GeoJsonWriter.property, gt_iff_lt, propSep_ok, seq_ok, liftOut,
      write_num_prop_ok, write_str_prop_ok, propOut]

/-- C9: the sink and the adapter are fail-fast with no rollback — a
`coordinate` call whose second underlying write fails returns that error at
once with the separator byte already written still in the output and the
remaining writes never attempted; every `coordinate` and `property` call, on
any transport, only ever extends the bytes already in the output; and
`to_gdal_ndim` returns the first error its driven sink construction raises. -/
theorem fail_fast_no_rollback :
    (∀ (d : CoordDimensions) (b x y : String) (z : Option String) (idx : Nat),
       0 < idx →
       GeoJsonWriter.coordinate ⟨d, ⟨b, some 1⟩⟩ x y z none none none idx
         = (⟨d, ⟨b ++ ",", some 0⟩⟩, .error .IoError)) ∧
    (∀ (w : GeoJsonWriter) (x y : String) (z m t : Option String) (tm : Option Nat)
       (idx : Nat), bufExtends (w.coordinate x y z m t tm idx).1 w) ∧
    (∀ (w : GeoJsonWriter) (i : Nat) (name : String) (v : ColumnValue),
       bufExtends (w.property i name v).1 w) ∧
    (∀ (g : GeozeroSource) (dims : CoordDimensions) (e : GeozeroError),
       g.process_geom { GdalWriter.new with dims := dims } = .error e →
       to_gdal_ndim g dims = .error e) := by
  refine ⟨?_, coordinate_extendsBuf, property_extendsBuf, ?_⟩
  · intro d b x y z idx h
    unfold GeoJsonWriter.coordinate
    have hcomma : GeoJsonWriter.comma ⟨d, ⟨b, some 1⟩⟩ idx
        = (⟨d, ⟨b ++ ",", some 0⟩⟩, .ok ()) := by
      simp only [GeoJsonWriter.comma, gt_iff_lt, h, if_true, ite_true]
      rfl
    have hfail : GeoJsonWriter.writeOut ⟨d, ⟨b ++ ",", some 0⟩⟩ ("[" ++ x ++ "," ++ y)
        = (⟨d, ⟨b ++ ",", some 0⟩⟩, .error .IoError) := rfl
    rw [hcomma, seq_ok, hfail, seq_error]
  · intro g dims e h
    unfold to_gdal_ndim
    rw [h]

/-- C9 witness: a concrete failing transport — the comma goes out, the error
comes back, nothing is rolled back — and a concrete failing adapter drive. -/
theorem fail_fast_no_rollback_witness :
    (0 < 1 ∧
     GeoJsonWriter.coordinate ⟨CoordDimensions.default, ⟨"", some 1⟩⟩ "1" "2"
         none none none none 1
       = (⟨CoordDimensions.default, ⟨"" ++ ",", some 0⟩⟩, .error .IoError)) ∧
    to_gdal_ndim ⟨fun _ => .error .IoError⟩ CoordDimensions.default
      = .error .IoError := by
  refine ⟨⟨by decide, ?_⟩, ?_⟩
  · exact fail_fast_no_rollback.1 CoordDimensions.default "" "1" "2" none 1 (by decide)
  · exact fail_fast_no_rollback.2.2.2 ⟨fun _ => .error .IoError⟩
      CoordDimensions.default .IoError rfl

/-- C10: `property` never asks the driver to stop early — whenever the call
succeeds its result is `Ok(false)`, for every writer state, index, name and
attribute-value kind; the only other possible outcome is a propagated I/O
error. -/
theorem property_continuation_false (w : GeoJsonWriter) (i : Nat) (name : String)
    (v : ColumnValue) :
    (w.property i name v).2 = .ok false ∨
    (w.property i name v).2 = .error .IoError := by
  unfold GeoJsonWriter.property
  apply seq_result
  · by_cases h : i > 0
    · simp only [h, if_true, ite_true]
      exact writeOut_result w ", "
    · simp [h]
  · intro w1
    apply seq_result
    · cases v <;>
        first
          | exact Or.inl rfl
          | exact write_all_result w1.out _
    · intro w2
      exact Or.inl rfl

/-- C5 witness: a concrete string property with an embedded quote renders
quoted with the quote escaped, and a concrete quote-free string passes
through escaping untouched. -/
theorem property_value_rendering_witness :
    (GeoJsonWriter.property ⟨CoordDimensions.default, ⟨"", none⟩⟩ 0 "name"
        (ColumnValue.String "New\"Zealand")
      = propOut CoordDimensions.default "" 0
          ("\"" ++ escapeQuote "name" ++ "\": \"" ++ escapeQuote "New\"Zealand" ++ "\"")) ∧
    ((∀ c ∈ ("abc" : String).data, c ≠ '"') ∧ escapeQuote "abc" = "abc") := by
  refine ⟨?_, by decide, ?_⟩
  · exact property_value_rendering.2.2.2.2.2.2.2.2.2.2.2.1
      CoordDimensions.default "" 0 "name" "New\"Zealand"
  · exact property_value_rendering.2.2.2.2.2.2.2.2.2.2.2.2.2.1 "abc" (by decide)
